import Mathlib

/-!
Shallow embedding of `src/pythess/descriptors/descriptors.ipynb`.

The notebook demonstrates Python attribute access: name mangling
(`Mapping` / `MappingSubclass`), toy reimplementations of `classmethod`,
`staticmethod` and `property` (`MyClassmethod`, `MyStaticmethod`,
`MyProperty`), a `property`-based `BasketballGame`, the data descriptor
`NonNegativeField`, and the classes `BasketballGameA` / `BasketballGameB`
(the latter processed by the `named_descriptors` class decorator).

Modelling choices:
  - an instance `__dict__` is an association list `String × Int`
    (the validated fields hold numbers); `dictSet` mirrors Python dict
    assignment (update in place, append when the key is new) and
    `dictGet` mirrors lookup;
  - raising an exception is `Except PyError`; code after a `raise`
    does not run, so an `.error` result carries the unchanged state
    by construction, exactly as in CPython where `__set__` raises
    before its mutation statement;
  - a statement `self.x = v` inside a `try`/`except` that swallows the
    error leaves the instance as it was: `setAttempt` below.
-/

namespace Descriptors

/-- Python exceptions raised by the notebook code. -/
inductive PyError where
  | valueError (msg : String)
  | attributeError (msg : String)
  | keyError (key : String)
deriving DecidableEq, Repr

/-- An instance `__dict__`: insertion-ordered association list. -/
abbrev Dict := List (String × Int)

/-- Dict lookup, `d[k]`: `none` models a `KeyError`. -/
def dictGet : Dict → String → Option Int
  | [], _ => none
  | (k', v') :: rest, k => if k' = k then some v' else dictGet rest k

/-- Dict assignment `d[k] = v`: overwrite the existing entry, else append. -/
def dictSet : Dict → String → Int → Dict
  | [], k, v => [(k, v)]
  | (k', v') :: rest, k, v =>
      if k' = k then (k, v) :: rest else (k', v') :: dictSet rest k v

theorem dictGet_dictSet (d : Dict) (k k2 : String) (v : Int) :
    dictGet (dictSet d k v) k2 = if k = k2 then some v else dictGet d k2 := by
  induction d with
  | nil => simp [dictGet, dictSet]
  | cons hd tl ih =>
      obtain ⟨k', v'⟩ := hd
      by_cases h1 : k' = k
      · subst h1
        by_cases h2 : k' = k2 <;> simp [dictGet, dictSet, h2]
      · by_cases h2 : k' = k2
        · subst h2
          have : k ≠ k' := fun h => h1 h.symm
          simp [dictGet, dictSet, h1, this]
        · simp [dictGet, dictSet, h1, h2, ih]

/-!
`NonNegativeField` (notebook cell 25):

```python
class NonNegativeField:
    def __init__(self, field=''):
        self.field = field

    def __get__(self, instance, owner):
        return instance.__dict__[self.field]

    def __set__(self, instance, value):
        if value < 0:
            raise ValueError('Positive values only!')
        instance.__dict__[self.field] = value
```
-/

/-- The descriptor object: it stores only the field name. -/
structure NonNegativeField where
  field : String
deriving DecidableEq, Repr

/-- `NonNegativeField.__get__`: read `instance.__dict__[self.field]`.
The `owner` argument is unused by the source and omitted. -/
def NonNegativeField.get (f : NonNegativeField) (inst : Dict) : Option Int :=
  dictGet inst f.field

/-- `NonNegativeField.__set__`: raise `ValueError` on a negative value,
otherwise store it in `instance.__dict__[self.field]`. -/
def NonNegativeField.set (f : NonNegativeField) (inst : Dict) (v : Int) :
    Except PyError Dict :=
  if v < 0 then .error (.valueError "Positive values only!")
  else .ok (dictSet inst f.field v)

/-- An assignment through the descriptor whose `ValueError` is caught
(as in the notebook demo cells): the instance keeps its old state on
failure. -/
def NonNegativeField.setOrKeep (f : NonNegativeField) (inst : Dict) (v : Int) :
    Dict :=
  match NonNegativeField.set f inst v with
  | .ok d2 => d2
  | .error _ => inst

/-!
`BasketballGame` (notebook cell 24) validates `points`, `rebounds` and
`steals` through built-in `property` setters, each backed by an
underscored slot; e.g.

```python
    @points.setter
    def points(self, value):
        if value < 0:
            raise ValueError('Positive values only!')
        self._points = value
```
-/

/-- The `points` property getter: returns `self._points`. -/
def BasketballGame.points_get (d : Dict) : Option Int := dictGet d "_points"

/-- The `points` property setter. -/
def BasketballGame.points_set (d : Dict) (v : Int) : Except PyError Dict :=
  if v < 0 then .error (.valueError "Positive values only!")
  else .ok (dictSet d "_points" v)

/-- The `rebounds` property setter. -/
def BasketballGame.rebounds_set (d : Dict) (v : Int) : Except PyError Dict :=
  if v < 0 then .error (.valueError "Positive values only!")
  else .ok (dictSet d "_rebounds" v)

/-- The `steals` property setter. -/
def BasketballGame.steals_set (d : Dict) (v : Int) : Except PyError Dict :=
  if v < 0 then .error (.valueError "Positive values only!")
  else .ok (dictSet d "_steals" v)

/-- `points` assignment with the `ValueError` caught: state kept on failure. -/
def BasketballGame.points_setOrKeep (d : Dict) (v : Int) : Dict :=
  match BasketballGame.points_set d v with
  | .ok d2 => d2
  | .error _ => d

/-!
Name mangling demo (notebook cell 2):

```python
class Mapping:
    def __init__(self, iterable):
        self.items_list = []
        self.__update(iterable) # same as self._Mapping__update(iterable)

    def update(self, iterable):
        for item in iterable:
            self.items_list.append(item)

    __update = update   # private copy of original update() method

class MappingSubclass(Mapping):
    def update(self, keys, values):
        # provides new signature for update() but does not break __init__()
        for item in zip(keys, values):
            self.items_list.append(item)
```

`items_list` may hold plain items or the pairs appended by the subclass
override, so its element type is a sum.
-/

/-- An element of `items_list`: a plain iterable item, or a `zip` pair
appended by `MappingSubclass.update`. -/
inductive Item where
  | atom (n : Int)
  | pair (a b : Int)
deriving DecidableEq, Repr

/-- `Mapping.update`: append every item of the iterable to `items_list`. -/
def Mapping.update (itemsList : List Item) (iterable : List Item) : List Item :=
  iterable.foldl (fun acc item => acc ++ [item]) itemsList

/-- The private copy `__update = update`, reachable as `_Mapping__update`:
name mangling binds it to the original `update` once and for all. -/
def Mapping.mangledUpdate : List Item → List Item → List Item :=
  Mapping.update

/-- `Mapping.__init__`: start from an empty `items_list` and call
`self.__update(iterable)`, which resolves to the private copy. -/
def Mapping.init (iterable : List Item) : List Item :=
  Mapping.mangledUpdate [] iterable

/-- `MappingSubclass.update`: a different, incompatible signature; it
appends the `zip` of the two argument lists. -/
def MappingSubclass.update (itemsList : List Item) (keys values : List Int) :
    List Item :=
  (keys.zip values).foldl (fun acc kv => acc ++ [Item.pair kv.1 kv.2]) itemsList

/-- `MappingSubclass` inherits `__init__` from `Mapping`; the mangled call
`self._Mapping__update` inside it still refers to the base class's private
copy, not to `MappingSubclass.update`. -/
def MappingSubclass.init (iterable : List Item) : List Item :=
  Mapping.init iterable

/-!
`MyClassmethod` and `MyStaticmethod` (notebook cell 16):

```python
class MyClassmethod:
    def __init__(self, func):
         self.func = func

    def __get__(self, instance, owner):
        def cls_wrapper(*args, **kwargs):
            return self.func(owner, *args, **kwargs)
        return cls_wrapper

class MyStaticmethod:
    def __init__(self, func):
        self.func = func

    def __get__(self, instance, owner):
        return self.func
```

The wrapped function takes the owner class (type `C`) and the explicit
arguments (packed as one value of type `A`), returning `R`. The instance
argument of `__get__` is `Option I` (`none` is Python's `None` for access
through the class).
-/

/-- The class-bound-method wrapper object. -/
structure MyClassmethod (C A R : Type) where
  func : C → A → R

/-- `MyClassmethod.__get__`: ignore the instance and return `cls_wrapper`,
which prepends the owner class to the explicit arguments. -/
def MyClassmethod.get {C A R I : Type} (m : MyClassmethod C A R)
    (inst : Option I) (owner : C) : A → R :=
  fun args => m.func owner args

/-- The static-method wrapper object; `F` is the wrapped function's type. -/
structure MyStaticmethod (F : Type) where
  func : F

/-- `MyStaticmethod.__get__`: return the stored function unchanged,
whatever the instance and owner are. -/
def MyStaticmethod.get {F C I : Type} (m : MyStaticmethod F)
    (inst : Option I) (owner : C) : F :=
  m.func

/-!
`MyProperty` (notebook cell 19):

```python
class MyProperty:
    def __init__(self, fget=None, fset=None, fdel=None):
        self.fget = fget
        self.fset = fset
        self.fdel = fdel

    def __get__(self, instance, owner):
        if instance is None:  # this was called from the class, not the instance
            return self
        elif self.fget is None:
            raise AttributeError("unreadable attribute")
        else:
            return self.fget(instance)

    def __set__(self, instance, value):
        if self.fset is None:
            raise AttributeError("can't set attribute")
        else:
            self.fset(instance, value)

    def __delete__(self, instance):
        if self.fdel is None:
            raise AttributeError("can't delete attribute")
        else:
            self.fdel(instance)
```

`fset` mutates the instance, so here it maps an instance state and a value
to the new instance state; `fdel` likewise maps state to state.
-/

/-- The computed-property wrapper: optional getter, setter and deleter. -/
structure MyProperty (I V : Type) where
  fget : Option (I → V)
  fset : Option (I → V → I)
  fdel : Option (I → I)

/-- `MyProperty.__get__` returns either the descriptor object itself
(class access) or a computed value (instance access). -/
inductive GetResult (I V : Type) where
  | descriptor (p : MyProperty I V)
  | value (v : V)

/-- `MyProperty.__get__`: on class access (`inst = none`) return the
descriptor itself; otherwise call `fget`, raising `AttributeError` when it
is missing. -/
def MyProperty.get {I V : Type} (p : MyProperty I V) (inst : Option I) :
    Except PyError (GetResult I V) :=
  match inst with
  | none => .ok (.descriptor p)
  | some a =>
      match p.fget with
      | none => .error (.attributeError "unreadable attribute")
      | some f => .ok (.value (f a))

/-- `MyProperty.__set__`: call `fset`, raising `AttributeError` when it is
missing. -/
def MyProperty.set {I V : Type} (p : MyProperty I V) (a : I) (v : V) :
    Except PyError I :=
  match p.fset with
  | none => .error (.attributeError "can\x27t set attribute")
  | some f => .ok (f a v)

/-- `MyProperty.__delete__`: call `fdel`, raising `AttributeError` when it
is missing. -/
def MyProperty.delete {I V : Type} (p : MyProperty I V) (a : I) :
    Except PyError I :=
  match p.fdel with
  | none => .error (.attributeError "can\x27t delete attribute")
  | some f => .ok (f a)

/-!
`BasketballGameA`, `named_descriptors` and `BasketballGameB`
(notebook cells 26 and 27):

```python
class BasketballGameA:
    points = NonNegativeField('points')
    rebounds = NonNegativeField('rebounds')
    steals = NonNegativeField('steals')

    def __init__(self, points, rebounds, steals):
        self.points = points
        self.rebounds = rebounds
        self.steals = steals

def named_descriptors(cls):
    for name, attr in cls.__dict__.items():
        if isinstance(attr, NonNegativeField):
            attr.field = name
    return cls

@named_descriptors
class BasketballGameB:
    points = NonNegativeField()
    rebounds = NonNegativeField()
    steals = NonNegativeField()

    def __init__(self, points, rebounds, steals):
        ...  # same as BasketballGameA
```

A class `__dict__` maps names to attributes: a `NonNegativeField`
descriptor or some other (non-descriptor) class attribute. Since
`NonNegativeField` has both `__get__` and `__set__` it is a data
descriptor, so attribute access on an instance dispatches to it first;
assignment to a name without a data descriptor writes the instance
`__dict__` directly, and lookup of such a name checks the instance
`__dict__` before falling back to the class attribute.
-/

/-- An entry of a class `__dict__`: a `NonNegativeField` descriptor, or a
plain (non-descriptor) class attribute holding a value. -/
inductive ClassAttr where
  | descField (f : NonNegativeField)
  | plain (v : Int)
deriving DecidableEq, Repr

/-- A class `__dict__`. -/
abbrev ClassDict := List (String × ClassAttr)

/-- Lookup of a name in a class `__dict__`. -/
def classLookup : ClassDict → String → Option ClassAttr
  | [], _ => none
  | (k, a) :: rest, n => if k = n then some a else classLookup rest n

/-- `named_descriptors`: set each `NonNegativeField`'s `field` attribute to
the class-attribute name it is bound to; other attributes pass through. -/
def named_descriptors (cd : ClassDict) : ClassDict :=
  cd.map (fun kv =>
    match kv with
    | (name, ClassAttr.descField _) => (name, ClassAttr.descField ⟨name⟩)
    | (name, ClassAttr.plain v) => (name, ClassAttr.plain v))

/-- `self.n = v` on an instance of a class with `__dict__` `cd`: a data
descriptor at `n` intercepts the write, otherwise the instance
`__dict__` is written directly. -/
def instSet (cd : ClassDict) (d : Dict) (n : String) (v : Int) :
    Except PyError Dict :=
  match classLookup cd n with
  | some (ClassAttr.descField f) => NonNegativeField.set f d v
  | _ => .ok (dictSet d n v)

/-- `self.n` on an instance of a class with `__dict__` `cd`: a data
descriptor at `n` is invoked first; otherwise the instance `__dict__`,
then a plain class attribute; else `AttributeError`. -/
def instGetAttr (cd : ClassDict) (d : Dict) (n : String) : Except PyError Int :=
  match classLookup cd n with
  | some (ClassAttr.descField f) =>
      match NonNegativeField.get f d with
      | some v => .ok v
      | none => .error (.keyError f.field)
  | some (ClassAttr.plain v) =>
      match dictGet d n with
      | some w => .ok w
      | none => .ok v
  | none =>
      match dictGet d n with
      | some w => .ok w
      | none => .error (.attributeError n)

/-- `self.n = v` inside a `try` that catches the `ValueError`: the instance
keeps its old `__dict__` when the write is rejected. -/
def setAttempt (cd : ClassDict) (d : Dict) (n : String) (v : Int) : Dict :=
  match instSet cd d n v with
  | .ok d2 => d2
  | .error _ => d

/-- `__init__(self, points, rebounds, steals)` shared by both game classes:
three sequential descriptor-mediated assignments starting from an empty
instance `__dict__`, each raising out of the constructor on failure. -/
def gameInit (cd : ClassDict) (p r s : Int) : Except PyError Dict :=
  match instSet cd [] "points" p with
  | .error e => .error e
  | .ok d1 =>
      match instSet cd d1 "rebounds" r with
      | .error e => .error e
      | .ok d2 => instSet cd d2 "steals" s

/-- The class `__dict__` of `BasketballGameA`: descriptors constructed with
explicit field names. -/
def BasketballGameA.classDict : ClassDict :=
  [("points", ClassAttr.descField ⟨"points"⟩),
   ("rebounds", ClassAttr.descField ⟨"rebounds"⟩),
   ("steals", ClassAttr.descField ⟨"steals"⟩)]

/-- The class `__dict__` of `BasketballGameB` before the decorator runs:
anonymous descriptors with the default empty field name. -/
def BasketballGameB.rawClassDict : ClassDict :=
  [("points", ClassAttr.descField ⟨""⟩),
   ("rebounds", ClassAttr.descField ⟨""⟩),
   ("steals", ClassAttr.descField ⟨""⟩)]

/-- The class `__dict__` of `BasketballGameB` as the program sees it:
`@named_descriptors` has filled in the field names. -/
def BasketballGameB.classDict : ClassDict :=
  named_descriptors BasketballGameB.rawClassDict

/-- `BasketballGameA.__init__`. -/
def BasketballGameA.init (p r s : Int) : Except PyError Dict :=
  gameInit BasketballGameA.classDict p r s

/-- `BasketballGameB.__init__`. -/
def BasketballGameB.init (p r s : Int) : Except PyError Dict :=
  gameInit BasketballGameB.classDict p r s

/-- One observable operation on a game instance: read an attribute or
assign a value to one. -/
inductive Op where
  | read (name : String)
  | write (name : String) (v : Int)
deriving DecidableEq, Repr

/-- Run one operation: a read appends its result to the trace; a write
updates the instance on success, is caught and leaves it unchanged on
failure, and appends its outcome to the trace. -/
def step (cd : ClassDict) (st : Dict × List (Except PyError Int)) (op : Op) :
    Dict × List (Except PyError Int) :=
  match op with
  | Op.read n => (st.1, st.2 ++ [instGetAttr cd st.1 n])
  | Op.write n v =>
      match instSet cd st.1 n v with
      | .ok d2 => (d2, st.2 ++ [.ok v])
      | .error e => (st.1, st.2 ++ [.error e])

/-- Run a sequence of reads and writes from instance state `d`, returning
the final instance `__dict__` and the trace of observed results. -/
def runOps (cd : ClassDict) (d : Dict) (ops : List Op) :
    Dict × List (Except PyError Int) :=
  ops.foldl (step cd) (d, [])

/-- A sequence of caught attribute assignments (`setAttempt` repeated). -/
def runWrites (cd : ClassDict) (d : Dict) (ws : List (String × Int)) : Dict :=
  ws.foldl (fun acc w => setAttempt cd acc w.1 w.2) d

/-- The non-negativity invariant of the validated fields: every value the
instance `__dict__` stores under `points`, `rebounds` or `steals` is
non-negative. -/
def fieldsNonNeg (d : Dict) : Prop :=
  ∀ k v, (k = "points" ∨ k = "rebounds" ∨ k = "steals") →
    dictGet d k = some v → 0 ≤ v

/-! Helper lemmas. -/

theorem fieldsNonNeg_nil : fieldsNonNeg [] := by
  intro k v _ hget
  simp [dictGet] at hget

theorem classDictB_eq_classDictA :
    BasketballGameB.classDict = BasketballGameA.classDict := rfl

theorem setAttempt_of_ok (cd : ClassDict) (d : Dict) (n : String) (v : Int)
    (d2 : Dict) (h : instSet cd d n v = .ok d2) : setAttempt cd d n v = d2 := by
  simp [setAttempt, h]

theorem fieldsNonNeg_dictSet_guarded (d : Dict) (n : String) (v : Int)
    (hv : 0 ≤ v)
    (h : fieldsNonNeg d) : fieldsNonNeg (dictSet d n v) := by
  intro k w hk hget
  rw [dictGet_dictSet] at hget
  by_cases he : n = k
  · rw [if_pos he] at hget
    cases hget
    exact hv
  · rw [if_neg he] at hget
    exact h k w hk hget

theorem fieldsNonNeg_dictSet_unguarded (d : Dict) (n : String) (v : Int)
    (hn : ¬(n = "points" ∨ n = "rebounds" ∨ n = "steals"))
    (h : fieldsNonNeg d) : fieldsNonNeg (dictSet d n v) := by
  intro k w hk hget
  rw [dictGet_dictSet] at hget
  have he : n ≠ k := by
    intro he
    exact hn (he ▸ hk)
  rw [if_neg he] at hget
  exact h k w hk hget

theorem setAttempt_preservesA (d : Dict) (n : String) (v : Int)
    (h : fieldsNonNeg d) :
    fieldsNonNeg (setAttempt BasketballGameA.classDict d n v) := by
  by_cases hp : "points" = n
  · subst hp
    by_cases hv : v < 0
    · simpa [setAttempt, instSet, classLookup, BasketballGameA.classDict,
        NonNegativeField.set, hv] using h
    · simp only [setAttempt, instSet, classLookup, BasketballGameA.classDict,
        NonNegativeField.set, if_pos rfl, if_neg hv]
      exact fieldsNonNeg_dictSet_guarded d "points" v (le_of_not_lt hv) h
  · by_cases hr : "rebounds" = n
    · subst hr
      by_cases hv : v < 0
      · simpa [setAttempt, instSet, classLookup, BasketballGameA.classDict,
          NonNegativeField.set, hv] using h
      · simp only [setAttempt, instSet, classLookup, BasketballGameA.classDict,
          NonNegativeField.set, if_pos rfl, if_neg hv, if_neg hp]
        exact fieldsNonNeg_dictSet_guarded d "rebounds" v (le_of_not_lt hv) h
    · by_cases hs : "steals" = n
      · subst hs
        by_cases hv : v < 0
        · simpa [setAttempt, instSet, classLookup, BasketballGameA.classDict,
            NonNegativeField.set, hv] using h
        · simp only [setAttempt, instSet, classLookup, BasketballGameA.classDict,
            NonNegativeField.set, if_pos rfl, if_neg hv, if_neg hp, if_neg hr]
          exact fieldsNonNeg_dictSet_guarded d "steals" v (le_of_not_lt hv) h
      · simp only [setAttempt, instSet, classLookup, BasketballGameA.classDict,
          if_neg hp, if_neg hr, if_neg hs]
        exact fieldsNonNeg_dictSet_unguarded d n v
          (by
            rintro (h1 | h1 | h1)
            · exact hp h1.symm
            · exact hr h1.symm
            · exact hs h1.symm) h

theorem runWrites_preservesA (ws : List (String × Int)) :
    ∀ d : Dict, fieldsNonNeg d →
      fieldsNonNeg (runWrites BasketballGameA.classDict d ws) := by
  induction ws with
  | nil => intro d h; exact h
  | cons w ws ih =>
      intro d h
      exact ih _ (setAttempt_preservesA d w.1 w.2 h)

theorem gameInitA_nonNeg (p r s : Int) (d0 : Dict)
    (h : gameInit BasketballGameA.classDict p r s = .ok d0) :
    fieldsNonNeg d0 := by
  unfold gameInit at h
  cases h1 : instSet BasketballGameA.classDict [] "points" p with
  | error e => rw [h1] at h; simp at h
  | ok d1 =>
      rw [h1] at h
      simp only [] at h
      have i1 : fieldsNonNeg d1 := by
        have := setAttempt_preservesA [] "points" p fieldsNonNeg_nil
        rwa [setAttempt_of_ok _ _ _ _ _ h1] at this
      cases h2 : instSet BasketballGameA.classDict d1 "rebounds" r with
      | error e => rw [h2] at h; simp at h
      | ok d2 =>
          rw [h2] at h
          simp only [] at h
          have i2 : fieldsNonNeg d2 := by
            have := setAttempt_preservesA d1 "rebounds" r i1
            rwa [setAttempt_of_ok _ _ _ _ _ h2] at this
          have i3 : fieldsNonNeg d0 := by
            have := setAttempt_preservesA d2 "steals" s i2
            rwa [setAttempt_of_ok _ _ _ _ _ h] at this
          exact i3

theorem foldl_append_singleton (xs : List Item) :
    ∀ l : List Item, xs.foldl (fun acc item => acc ++ [item]) l = l ++ xs := by
  induction xs with
  | nil => intro l; simp
  | cons x xs ih =>
      intro l
      simp only [List.foldl]
      rw [ih (l ++ [x])]
      simp

/-! Claim theorems. -/

/-- Claim C1: every instance of `BasketballGameA` (and `BasketballGameB`)
reachable through `__init__` and any sequence of attribute assignments
stores only non-negative values under `points`, `rebounds` and `steals`
in its `__dict__`: `NonNegativeField.__set__` only stores a value when it
is non-negative, so the invariant holds after construction and after
every further (possibly rejected) assignment. -/
theorem nonNegativeField_invariant (p r s : Int) (d0 : Dict)
    (ws : List (String × Int))
    (h : gameInit BasketballGameA.classDict p r s = .ok d0) :
    fieldsNonNeg (runWrites BasketballGameA.classDict d0 ws)
    ∧ gameInit BasketballGameB.classDict p r s = .ok d0
    ∧ fieldsNonNeg (runWrites BasketballGameB.classDict d0 ws) := by
  have h0 := gameInitA_nonNeg p r s d0 h
  have hA := runWrites_preservesA ws d0 h0
  refine ⟨hA, ?_, ?_⟩
  · rw [classDictB_eq_classDictA]; exact h
  · rw [classDictB_eq_classDictA]; exact hA

/-- Claim C1 witness: the invariant at a concrete construction followed by
a rejected write, a write to an unvalidated name and an accepted write. -/
theorem nonNegativeField_invariant_witness :
    gameInit BasketballGameA.classDict 100 30 10 =
      .ok [("points", 100), ("rebounds", 30), ("steals", 10)]
    ∧ fieldsNonNeg (runWrites BasketballGameA.classDict
        [("points", 100), ("rebounds", 30), ("steals", 10)]
        [("points", -5), ("blocks", -3), ("points", 7)])
    ∧ gameInit BasketballGameB.classDict 100 30 10 =
        .ok [("points", 100), ("rebounds", 30), ("steals", 10)]
    ∧ fieldsNonNeg (runWrites BasketballGameB.classDict
        [("points", 100), ("rebounds", 30), ("steals", 10)]
        [("points", -5), ("blocks", -3), ("points", 7)]) := by
  have := nonNegativeField_invariant 100 30 10
    [("points", 100), ("rebounds", 30), ("steals", 10)]
    [("points", -5), ("blocks", -3), ("points", 7)] (by rfl)
  exact ⟨by rfl, this.1, this.2.1, this.2.2⟩

/-- Claim C2: the validators reject exactly the negative values: assigning
`v` through `NonNegativeField.__set__` or a `BasketballGame` setter raises
`ValueError` iff `v < 0`; for `v ≥ 0` the assignment succeeds and stores
`v`; in particular `v = 0` is accepted despite the error message saying
"Positive values only!". -/
theorem validators_reject_negative_iff (f : NonNegativeField) (d : Dict)
    (v : Int) :
    (NonNegativeField.set f d v =
        .error (.valueError "Positive values only!") ↔ v < 0)
    ∧ (NonNegativeField.set f d v = .ok (dictSet d f.field v) ↔ 0 ≤ v)
    ∧ (BasketballGame.points_set d v =
        .error (.valueError "Positive values only!") ↔ v < 0)
    ∧ (BasketballGame.points_set d v = .ok (dictSet d "_points" v) ↔ 0 ≤ v)
    ∧ (BasketballGame.rebounds_set d v =
        .error (.valueError "Positive values only!") ↔ v < 0)
    ∧ (BasketballGame.rebounds_set d v = .ok (dictSet d "_rebounds" v) ↔ 0 ≤ v)
    ∧ (BasketballGame.steals_set d v =
        .error (.valueError "Positive values only!") ↔ v < 0)
    ∧ (BasketballGame.steals_set d v = .ok (dictSet d "_steals" v) ↔ 0 ≤ v)
    ∧ NonNegativeField.set f d 0 = .ok (dictSet d f.field 0) := by
  by_cases hv : v < 0 <;>
    simp [NonNegativeField.set, BasketballGame.points_set,
      BasketballGame.rebounds_set, BasketballGame.steals_set, hv] <;>
    omega

/-- Claim C3: a subclass overriding a method does not break the base
class's internal call through a name-mangled reference: for every iterable
`xs`, `MappingSubclass(xs).items_list` equals `list(xs)` even though
`MappingSubclass.update` has an incompatible signature, and
`Mapping(xs).items_list` equals `list(xs)` as well. -/
theorem mangled_update_unbroken (xs : List Item) :
    MappingSubclass.init xs = xs ∧ Mapping.init xs = xs := by
  constructor
  · show Mapping.init xs = xs
    unfold Mapping.init Mapping.mangledUpdate Mapping.update
    rw [foldl_append_singleton xs []]
    simp
  · unfold Mapping.init Mapping.mangledUpdate Mapping.update
    rw [foldl_append_singleton xs []]
    simp

/-- Claim C4: `MyProperty` implements the descriptor protocol faithfully:
with `fget` present, instance access computes `fget(a)`; with `fset`
present, assignment calls `fset(a, v)`; with `fdel` present, deletion
calls `fdel(a)`; and access from the class itself (`instance is None`)
returns the descriptor object, not a computed value. -/
theorem myProperty_computed_property {I V : Type} (f : I → V) (g : I → V → I)
    (h : I → I) (fg : Option (I → V)) (fs : Option (I → V → I))
    (fd : Option (I → I)) (p : MyProperty I V) (a : I) (v : V) :
    MyProperty.get ⟨some f, fs, fd⟩ (some a) = .ok (.value (f a))
    ∧ MyProperty.set ⟨fg, some g, fd⟩ a v = .ok (g a v)
    ∧ MyProperty.delete ⟨fg, fs, some h⟩ a = .ok (h a)
    ∧ MyProperty.get p none = .ok (.descriptor p) :=
  ⟨rfl, rfl, rfl, rfl⟩

/-- Claim C5: each `MyProperty` accessor raises `AttributeError` exactly
when its backing function is missing: instance `__get__` errors (with
"unreadable attribute") iff `fget` is `None`, `__set__` (with
"can't set attribute") iff `fset` is `None`, `__delete__` (with
"can't delete attribute") iff `fdel` is `None`. -/
theorem myProperty_attributeError_iff {I V : Type} (p : MyProperty I V)
    (a : I) (v : V) :
    (MyProperty.get p (some a) =
        .error (.attributeError "unreadable attribute") ↔ p.fget = none)
    ∧ ((∃ e, MyProperty.get p (some a) = .error e) ↔ p.fget = none)
    ∧ (MyProperty.set p a v =
        .error (.attributeError "can\x27t set attribute") ↔ p.fset = none)
    ∧ ((∃ e, MyProperty.set p a v = .error e) ↔ p.fset = none)
    ∧ (MyProperty.delete p a =
        .error (.attributeError "can\x27t delete attribute") ↔ p.fdel = none)
    ∧ ((∃ e, MyProperty.delete p a = .error e) ↔ p.fdel = none) := by
  obtain ⟨fg, fs, fd⟩ := p
  cases fg <;> cases fs <;> cases fd <;>
    simp [MyProperty.get, MyProperty.set, MyProperty.delete]

/-- Claim C6: `MyClassmethod` binds the owner class: accessing the wrapped
function returns a wrapper that prepends the owner class to the explicit
arguments, the instance argument of `__get__` is ignored, and calling
through the class or through any instance yields the identical call
`f(owner, args)`. -/
theorem myClassmethod_binds_owner {C A R I : Type} (f : C → A → R) (i : I)
    (owner : C) (args : A) :
    MyClassmethod.get ⟨f⟩ (some i) owner args = f owner args
    ∧ MyClassmethod.get ⟨f⟩ (none : Option I) owner args = f owner args
    ∧ MyClassmethod.get ⟨f⟩ (some i) owner =
        MyClassmethod.get ⟨f⟩ (none : Option I) owner :=
  ⟨rfl, rfl, rfl⟩

/-- Claim C7: `MyStaticmethod` is an identity wrapper on access: for every
function, every instance (including `None`) and every owner class,
`__get__` returns exactly the wrapped function, so wrapping then accessing
round-trips. -/
theorem myStaticmethod_identity {F C I : Type} (f : F) (i : Option I)
    (c : C) :
    MyStaticmethod.get (MyStaticmethod.mk f) i c = f :=
  rfl

/-- Claim C8: a rejected write is atomic: when the field currently stores
`w` and `v < 0`, the assignment raises `ValueError` before any mutation,
the instance `__dict__` is unchanged, and a subsequent read still returns
`w`; likewise for the `BasketballGame` `points` setter. -/
theorem rejected_write_atomic (f : NonNegativeField) (d : Dict) (w v : Int)
    (hw : dictGet d f.field = some w) (hv : v < 0) :
    NonNegativeField.set f d v = .error (.valueError "Positive values only!")
    ∧ NonNegativeField.setOrKeep f d v = d
    ∧ NonNegativeField.get f (NonNegativeField.setOrKeep f d v) = some w
    ∧ BasketballGame.points_set d v =
        .error (.valueError "Positive values only!")
    ∧ BasketballGame.points_setOrKeep d v = d := by
  refine ⟨?_, ?_, ?_, ?_, ?_⟩ <;>
    simp [NonNegativeField.set, NonNegativeField.setOrKeep,
      NonNegativeField.get, BasketballGame.points_set,
      BasketballGame.points_setOrKeep, hv, hw]

/-- Claim C8 witness: a concrete rejected write at a populated field. -/
theorem rejected_write_atomic_witness :
    dictGet [("points", (3 : Int))] "points" = some 3 ∧ (-1 : Int) < 0
    ∧ (NonNegativeField.set ⟨"points"⟩ [("points", 3)] (-1) =
        .error (.valueError "Positive values only!")
      ∧ NonNegativeField.setOrKeep ⟨"points"⟩ [("points", 3)] (-1) =
          [("points", 3)]
      ∧ NonNegativeField.get ⟨"points"⟩
          (NonNegativeField.setOrKeep ⟨"points"⟩ [("points", 3)] (-1)) =
          some 3
      ∧ BasketballGame.points_set [("points", 3)] (-1) =
          .error (.valueError "Positive values only!")
      ∧ BasketballGame.points_setOrKeep [("points", 3)] (-1) =
          [("points", 3)]) :=
  ⟨by rfl, by decide,
    rejected_write_atomic ⟨"points"⟩ [("points", 3)] 3 (-1) (by rfl)
      (by decide)⟩

/-- Claim C9: set-then-get round-trip for the validation field: for
`v ≥ 0` the assignment succeeds storing `v` in the slot named by the
descriptor, reading the field back returns exactly `v`, and every other
key of the instance `__dict__` is unchanged. -/
theorem set_get_roundtrip (f : NonNegativeField) (d : Dict) (v : Int)
    (hv : 0 ≤ v) :
    NonNegativeField.set f d v = .ok (dictSet d f.field v)
    ∧ NonNegativeField.get f (dictSet d f.field v) = some v
    ∧ ∀ k, k ≠ f.field → dictGet (dictSet d f.field v) k = dictGet d k := by
  refine ⟨?_, ?_, ?_⟩
  · simp [NonNegativeField.set, not_lt.mpr hv]
  · simp [NonNegativeField.get, dictGet_dictSet]
  · intro k hk
    rw [dictGet_dictSet, if_neg (fun he => hk he.symm)]

/-- Claim C9 witness: a concrete accepted write and read-back, with an
unrelated key untouched. -/
theorem set_get_roundtrip_witness :
    (0 : Int) ≤ 2
    ∧ (NonNegativeField.set ⟨"x"⟩ [("y", 5)] 2 =
        .ok (dictSet [("y", 5)] "x" 2)
      ∧ NonNegativeField.get ⟨"x"⟩ (dictSet [("y", 5)] "x" 2) = some 2
      ∧ ∀ k, k ≠ "x" →
          dictGet (dictSet [("y", 5)] "x" 2) k = dictGet [("y", 5)] k) :=
  ⟨by decide, set_get_roundtrip ⟨"x"⟩ [("y", 5)] 2 (by decide)⟩

/-- Claim C10: `BasketballGameA` (explicitly named fields) and
`BasketballGameB` (anonymous fields renamed by the `named_descriptors`
decorator) are observationally equivalent: the decorator gives `B` the
very class `__dict__` of `A`, so construction and every sequence of reads
and writes of `points`, `rebounds` and `steals` agree, raising
`ValueError` in exactly the same cases. -/
theorem gameA_gameB_equivalent (p r s : Int) (d : Dict) (ops : List Op) :
    BasketballGameB.classDict = BasketballGameA.classDict
    ∧ BasketballGameB.init p r s = BasketballGameA.init p r s
    ∧ runOps BasketballGameB.classDict d ops =
        runOps BasketballGameA.classDict d ops :=
  ⟨rfl, rfl, rfl⟩

end Descriptors
